import Mathlib

/-!
Verification of the `VECM` forecaster adapter
(`sktime/forecasting/vecm.py`), a thin wrapper around the statsmodels
VECM estimator.

Shallow embedding conventions:

* Numeric data values are modelled as `Int` (the claims under study are
  structural: which entries of which external arrays end up where; none
  depends on real-number arithmetic).  Coverage fractions and
  significance levels are modelled as `ℚ`.  Cells of pandas results that
  can be missing (`NaN`, as produced by label-aligned frame arithmetic)
  are modelled as `Option Int`, with `none` for `NaN`.
* A pandas `DataFrame` is an index-labelled matrix: a list of integer
  index labels (absolute time points), an optional index name, a list of
  column labels, and a row-major matrix of values.
* The statsmodels fitted-result object is opaque to the adapter; it is
  modelled as `FittedDelegate`, a record of abstract functions
  (`predict` without and with `alpha`, and the residual matrix).
* The `ForecastingHorizon` class and the `_StatsModelsAdapter` /
  `BaseForecaster` machinery are sktime code that is not part of the
  file under study; where a claim depends on them they are modelled
  from the spec (see the individual doc comments).  A horizon is a list
  of integer offsets relative to the cutoff; per the spec it is an
  ordered (sorted ascending) collection.
-/

/-- A row-major matrix of data values (`numpy` 2-d array / `DataFrame.values`). -/
abbrev Mat := List (List Int)

/-- A pandas DataFrame over column-label type `κ`: integer index labels,
optional index name, column labels, and the value matrix. -/
structure DataFrame (κ : Type) where
  index : List Int
  indexName : Option String
  columns : List κ
  rows : Mat
deriving DecidableEq

/-- The opaque fitted-result object returned by the external statsmodels
library (spec §6): `predict(steps, exog_fc, exog_coint_fc)` returning a
point-forecast matrix with one row per step; the same routine with
`alpha` supplied returning a 3-tuple (point, lower, upper); and the
residual matrix aligned with the training rows. -/
structure FittedDelegate where
  predictPoint : Int → Option Mat → Option Mat → Mat
  predictInterval : Int → Option Mat → Option Mat → ℚ → Mat × Mat × Mat
  resid : Mat

/-- The arguments the adapter passes to the external `_VECM` constructor
in `VECM._fit` (source lines 156-168). -/
structure ModelArgs where
  endog : DataFrame String
  exog : Option Mat
  exog_coint : Option Mat
  dates : Option (List Int)
  freq : Option String
  missing : String
  k_ar_diff : Nat
  coint_rank : Nat
  deterministic : String
  seasons : Nat
  first_season : Nat

/-- The adapter instance: the eleven configuration fields stored by
`__init__` (source lines 120-130), plus the internal state fields —
the unfitted external model (`self._forecaster`, modelled by the
arguments it was built from), the fitted result
(`self._fitted_forecaster`), and the training series and cutoff kept by
the base class (`self._y`, `self.cutoff`; modelled from the spec §9:
the base handles cutoff/state bookkeeping). -/
structure VECM where
  dates : Option (List Int)
  freq : Option String
  missing : String
  k_ar_diff : Nat
  coint_rank : Nat
  deterministic : String
  seasons : Nat
  first_season : Nat
  method : String
  exog_coint : Option Mat
  exog_coint_fc : Option Mat
  forecaster : Option ModelArgs
  fitted_forecaster : Option FittedDelegate
  y_train : Option (DataFrame String)
  cutoff : Option Int

/-- `VECM.__init__` (source lines 106-132): stores each argument
verbatim in the same-named field; no fitted state yet. -/
def VECM.init (dates : Option (List Int)) (freq : Option String)
    (missing : String) (k_ar_diff : Nat) (coint_rank : Nat)
    (deterministic : String) (seasons : Nat) (first_season : Nat)
    (method : String) (exog_coint : Option Mat) (exog_coint_fc : Option Mat) :
    VECM :=
  { dates := dates, freq := freq, missing := missing, k_ar_diff := k_ar_diff,
    coint_rank := coint_rank, deterministic := deterministic,
    seasons := seasons, first_season := first_season, method := method,
    exog_coint := exog_coint, exog_coint_fc := exog_coint_fc,
    forecaster := none, fitted_forecaster := none, y_train := none,
    cutoff := none }

/-- `VECM._fit` (source lines 134-171): builds the external model from
the stored configuration plus the supplied data, fits it with the
configured method (`lib` stands for the external library's constructor
composed with its `fit`), and stores the result.  The base class
additionally records the training series and the cutoff (modelled from
the spec §9: cutoff/state bookkeeping is handled by the base; the
cutoff is the last time label of the training index). -/
def VECM._fit (m : VECM) (lib : ModelArgs → String → FittedDelegate)
    (y : DataFrame String) (X : Option Mat) : VECM :=
  let args : ModelArgs :=
    { endog := y, exog := X, exog_coint := m.exog_coint, dates := m.dates,
      freq := m.freq, missing := m.missing, k_ar_diff := m.k_ar_diff,
      coint_rank := m.coint_rank, deterministic := m.deterministic,
      seasons := m.seasons, first_season := m.first_season }
  { m with forecaster := some args,
           fitted_forecaster := some (lib args m.method),
           y_train := some y,
           cutoff := some (y.index.getLastD 0) }

/-- `VECM.get_test_params` (source lines 296-318): returns the two
parameter dictionaries `{}` and `{"k_ar_diff": 2}`.  A dictionary is
modelled as an association list from parameter name to value. -/
def VECM.get_test_params : List (List (String × Nat)) :=
  [[], [("k_ar_diff", 2)]]

/-- `VECM(**params)`: constructing an adapter from a test-parameter
dictionary; any parameter not in the dictionary takes its `__init__`
default (source lines 106-119: `missing="none"`, `k_ar_diff=1`,
`coint_rank=1`, `deterministic="n"`, `seasons=0`, `first_season=0`,
`method="ml"`, remaining fields `None`). -/
def VECM.fromTestParams (p : List (String × Nat)) : VECM :=
  VECM.init none none "none" ((p.lookup "k_ar_diff").getD 1)
    ((p.lookup "coint_rank").getD 1) "n" ((p.lookup "seasons").getD 0)
    ((p.lookup "first_season").getD 0) "ml" none none

/-- `fh_int.max()`: maximum of a list of offsets (pandas `.max()` on the
horizon's values; the horizon is guaranteed non-empty, the `0` default is
never reached in the source's uses). -/
def listMax : List Int → Int
  | [] => 0
  | h :: t => t.foldl max h

/-- `fh_int.min()`: minimum of a list of offsets. -/
def listMin : List Int → Int
  | [] => 0
  | h :: t => t.foldl min h

/-- `fh_int[-1]`: python negative indexing, the last element (the horizon
is guaranteed non-empty). -/
def lastElem (l : List Int) : Int := l.getLastD 0

/-- Modelled from the spec: `fh.to_relative(cutoff)` of the
`ForecastingHorizon` class (not under src/).  The horizon is modelled
directly as its relative integer offsets, so this is the identity. -/
def fhToRelative (fh : List Int) : List Int := fh

/-- Modelled from the spec: `fh.to_indexer(cutoff)` of the
`ForecastingHorizon` class (not under src/) — the zero-based position of
each requested offset relative to the cutoff, i.e. offset minus one
(spec §4.2 step 4: "select exactly the rows matching the requested
horizon positions"). -/
def fhToIndexer (fh : List Int) : List Int := (fhToRelative fh).map (fun o => o - 1)

/-- Modelled from the spec: `fh.to_absolute_index(cutoff)` of the
`ForecastingHorizon` class (not under src/) — the absolute time label of
each requested offset ("absolute time labels derived from the horizon",
spec §4.2). -/
def fhToAbsoluteIndex (cutoff : Int) (fh : List Int) : List Int :=
  fh.map (fun o => cutoff + o)

/-- Insert an integer into a list kept sorted ascending. -/
def sortedInsert (x : Int) : List Int → List Int
  | [] => [x]
  | h :: t => if x ≤ h then x :: h :: t else h :: sortedInsert x t

/-- `pandas.Index.union` for two integer-labelled indexes: the union of
the labels, deduplicated, sorted ascending (pandas sorts unions of
orderable labels). -/
def indexUnion (a b : List Int) : List Int :=
  ((a ++ b).dedup).foldr sortedInsert []

/-- A column label of the label-aligned difference frame: either one of
the training frame's string column labels or one of the residual
frame's `RangeIndex` integer column labels. -/
abbrev ColLabel := String ⊕ Nat

/-- The cell of `self._y` at row label `r`, column label `c`, as pandas
sees it: present exactly when both labels occur in the frame (first
occurrence), `NaN` (`none`) otherwise.  Integer column labels never
occur in the string-columned training frame. -/
def yCell (y : DataFrame String) (r : Int) (c : ColLabel) : Option Int :=
  match c with
  | Sum.inl lab =>
    match y.index.indexOf? r, y.columns.indexOf? lab with
    | some i, some j => some ((y.rows.getD i []).getD j 0)
    | _, _ => none
  | Sum.inr _ => none

/-- The cell of `pd.DataFrame(resid)` at row label `r`, column label
`c`: the frame built from the residual ndarray carries `RangeIndex`
labels on both axes, so the cell is present exactly when `r` is one of
`0, ..., m-1` and `c` is the integer label of one of the `w` columns. -/
def residCell (resid : Mat) (r : Int) (c : ColLabel) : Option Int :=
  match c with
  | Sum.inr j =>
    if 0 ≤ r ∧ r < (resid.length : Int) ∧ j < (resid.headD []).length then
      some ((resid.getD r.toNat []).getD j 0)
    else none
  | Sum.inl _ => none

/-- `(self._y - pd.DataFrame(resid)).values` (source lines 209-210):
pandas subtraction aligns both axes by label — the row labels are the
sorted union of the training index and the residual frame's
`RangeIndex`, the column labels are the training frame's string labels
followed by the residual frame's integer labels (a mixed-type union is
not sorted), and a cell is the difference of the two operand cells when
both are present at that (row label, column label) pair and `NaN`
(`none`) otherwise.  Since the string and integer column label sets are
disjoint, no pair is present in both frames and every cell is `NaN`. -/
def pdSubValues (y : DataFrame String) (resid : Mat) : List (List (Option Int)) :=
  let rowLabels := indexUnion y.index
    ((List.range resid.length).map (fun i => (i : Int)))
  let colLabels : List ColLabel := y.columns.map Sum.inl ++
    (List.range (resid.headD []).length).map Sum.inr
  rowLabels.map (fun r => colLabels.map (fun c =>
    match yCell y r c, residCell resid r c with
    | some a, some b => some (a - b)
    | _, _ => none))

/-- `np.concatenate([a, b], axis=0)` (source line 213): succeeds only
when the two blocks have the same column count (numpy raises a shape
`ValueError` otherwise). -/
def npConcat? (a b : List (List (Option Int))) :
    Option (List (List (Option Int))) :=
  if (a.headD []).length = (b.headD []).length then some (a ++ b) else none

/-- The frame returned by the point-prediction operation: like
`DataFrame String` but with possibly-missing (`NaN`) cells, since the
in-sample branch can contribute label-misaligned values. -/
structure FloatFrame where
  index : List Int
  indexName : Option String
  columns : List String
  rows : List (List (Option Int))
deriving DecidableEq

/-- Numpy row indexing `arr[i, :]` with a possibly negative integer `i`:
a negative index counts from the end; out of range is an error (`none`). -/
def npTake? {α : Type} (rows : List α) (i : Int) : Option α :=
  if 0 ≤ i then rows[i.toNat]?
  else if 0 ≤ (rows.length : Int) + i then rows[((rows.length : Int) + i).toNat]?
  else none

/-- Numpy fancy indexing `arr[idx, :]`: select the listed rows, in
order, duplicates honoured; any out-of-range entry is an error. -/
def npFancyRows {α : Type} (rows : List α) : List Int → Option (List α)
  | [] => some []
  | i :: is =>
    match npTake? rows i, npFancyRows rows is with
    | some r, some rs => some (r :: rs)
    | _, _ => none

/-- The matrix `y_pred` of `VECM._predict` before row selection (source
lines 192-217): the out-of-sample branch calls the delegate's forecast
for `fh_int[-1]` steps when any offset is positive (a pure float block,
injected into the `NaN`-capable cell domain); the in-sample branch is
the label-aligned difference `(self._y - pd.DataFrame(resid)).values`
when any offset is non-positive; when both are present the blocks are
concatenated (out-of-sample first) by `np.concatenate`, which fails on
a column-count mismatch. -/
def predictPool (fitted : FittedDelegate) (y : DataFrame String)
    (fh : List Int) (exog_fc exog_coint_fc : Option Mat) :
    Option (List (List (Option Int))) :=
  let fh_int := fhToRelative fh
  let y_pred_outsample : Option (List (List (Option Int))) :=
    if 0 < listMax fh_int then
      some ((fitted.predictPoint (lastElem fh_int) exog_fc
        exog_coint_fc).map (fun r => r.map some))
    else none
  let y_pred_insample : Option (List (List (Option Int))) :=
    if listMin fh_int ≤ 0 then some (pdSubValues y fitted.resid) else none
  match y_pred_insample, y_pred_outsample with
  | some i, some o => npConcat? o i
  | some i, none => some i
  | none, some o => some o
  | none, none => none

/-- `VECM._predict` (source lines 173-227): build the pooled prediction
matrix, select the rows at `fh.to_indexer(cutoff)`, and wrap them in a
frame carrying the horizon's absolute index (named like the training
index) and the training columns. -/
def VECM._predict (fitted : FittedDelegate) (y : DataFrame String)
    (cutoff : Int) (fh : List Int) (X : Option Mat)
    (exog_coint_fc : Option Mat) : Option FloatFrame :=
  let exog_fc := X
  match predictPool fitted y fh exog_fc exog_coint_fc with
  | none => none
  | some pool =>
    match npFancyRows pool (fhToIndexer fh) with
    | none => none
    | some rows =>
      some { index := fhToAbsoluteIndex cutoff fh, indexName := y.indexName,
             columns := y.columns, rows := rows }

/-- `var_names` of `VECM._predict_interval` (source lines 267-271): the
training index's name when it has one — a python string, which the later
uses (`len`, iteration in `MultiIndex.from_product`) treat as its
sequence of characters — and otherwise the training column labels. -/
def varNames (y : DataFrame String) : List String :=
  match y.indexName with
  | some nm => nm.toList.map (fun ch => String.mk [ch])
  | none => y.columns

/-- `pd.MultiIndex.from_product([as, bs, cs])` (source line 272): the
cartesian product of three label lists, first component varying
slowest. -/
def fromProduct3 (as : List String) (bs : List ℚ) (cs : List String) :
    List (String × ℚ × String) :=
  as.flatMap (fun a => bs.flatMap (fun b => cs.map (fun c => (a, b, c))))

/-- One invocation of the delegate's interval-producing forecast inside
the coverage loop: the `steps` and `alpha` arguments it was given. -/
structure IntervalCall where
  steps : Int
  alpha : ℚ
deriving DecidableEq

/-- The inner loop body of `VECM._predict_interval` (source lines
283-287): for each variable position, append the lower then the upper
bound taken from row 0 (`y_lower[0][v_idx]`, `y_upper[0][v_idx]`) of the
delegate's returned matrices. -/
def extractRow0 (nvars : Nat) (yl yu : Mat) : List Int :=
  (List.range nvars).flatMap
    (fun v => [(yl.headD []).getD v 0, (yu.headD []).getD v 0])

/-- The coverage loop of `VECM._predict_interval` (source lines
274-288): for each coverage value `c` in caller order, set
`alpha = 1 - c`, invoke the delegate's forecast with `steps` and that
`alpha`, extract the row-0 bounds per variable, and accumulate
(`all_values.extend`).  The second component records the delegate
invocations the loop makes, in order. -/
def intervalLoop (fitted : FittedDelegate) (steps : Int)
    (exog_fc exog_coint_fc : Option Mat) (nvars : Nat) :
    List ℚ → List Int × List IntervalCall
  | [] => ([], [])
  | c :: rest =>
    let alpha := 1 - c
    let r := fitted.predictInterval steps exog_fc exog_coint_fc alpha
    let values := extractRow0 nvars r.2.1 r.2.2
    let acc := intervalLoop fitted steps exog_fc exog_coint_fc nvars rest
    (values ++ acc.1, { steps := steps, alpha := alpha } :: acc.2)

/-- `VECM._predict_interval` (source lines 229-294): assemble the
three-level column index, run the coverage loop (delegate called with
`steps = fh_int[-1]`), and build a single-row DataFrame whose row index
is the horizon's full absolute index.  The second component is the
loop's delegate-invocation record. -/
def VECM._predict_interval (fitted : FittedDelegate) (y : DataFrame String)
    (cutoff : Int) (fh : List Int) (X : Option Mat)
    (exog_coint_fc : Option Mat) (coverage : List ℚ) :
    DataFrame (String × ℚ × String) × List IntervalCall :=
  let exog_fc := X
  let fh_int := fhToRelative fh
  let vnames := varNames y
  let int_idx := fromProduct3 vnames coverage ["lower", "upper"]
  let lp := intervalLoop fitted (lastElem fh_int) exog_fc exog_coint_fc
    vnames.length coverage
  ({ index := fhToAbsoluteIndex cutoff fh, indexName := none,
     columns := int_idx, rows := [lp.1] }, lp.2)

/-- The distinguishable error the caller-facing prediction operations
raise when the adapter has not been fitted (spec §7: "calling predict
before fit must surface as a distinct not-fitted error"). -/
inductive ForecastError
  | notFitted
deriving DecidableEq

/-- Modelled from the spec: the caller-facing `predict` (the
`BaseForecaster` orchestration is not under src/).  Spec §3/§7: the
fitted state must exist before any prediction operation; violating this
fails with a not-fitted error, not silent incorrect output; otherwise
the call is delegated to `VECM._predict`. -/
def VECM.predict (m : VECM) (fh : List Int) (X : Option Mat) :
    Except ForecastError (Option FloatFrame) :=
  match m.fitted_forecaster, m.y_train, m.cutoff with
  | some fitted, some y, some ct =>
    .ok (VECM._predict fitted y ct fh X m.exog_coint_fc)
  | _, _, _ => .error .notFitted

/-- Modelled from the spec: the caller-facing `predict_interval` (the
`BaseForecaster` orchestration is not under src/); as for
`VECM.predict`, a not-fitted adapter yields the not-fitted error. -/
def VECM.predict_interval (m : VECM) (fh : List Int) (X : Option Mat)
    (coverage : List ℚ) :
    Except ForecastError (DataFrame (String × ℚ × String) × List IntervalCall) :=
  match m.fitted_forecaster, m.y_train, m.cutoff with
  | some fitted, some y, some ct =>
    .ok (VECM._predict_interval fitted y ct fh X m.exog_coint_fc coverage)
  | _, _, _ => .error .notFitted

/-- A concrete fitted delegate for evaluating the adapter on explicit
inputs: the point forecast for `s` steps is the matrix with rows
`[100 + i, 200 + i]` for `i < s`; the interval forecast returns constant
matrices whose step-0 and step-1 rows differ; the residual matrix has
three rows. -/
def fdA : FittedDelegate :=
  { predictPoint := fun s _ _ =>
      (List.range s.toNat).map (fun i => [100 + (i : Int), 200 + (i : Int)]),
    predictInterval := fun _ _ _ _ =>
      ([[0, 0], [0, 0]], [[1, 2], [3, 4]], [[5, 6], [7, 8]]),
    resid := [[10, 10], [20, 20], [30, 30]] }

/-- A concrete two-column training frame with an unnamed index. -/
def yA : DataFrame String :=
  { index := [5, 6, 7], indexName := none, columns := ["a", "b"],
    rows := [[1, 2], [3, 4], [5, 6]] }

/-- The same training frame with a named index. -/
def yNamed : DataFrame String :=
  { index := [5, 6, 7], indexName := some "T", columns := ["a", "b"],
    rows := [[1, 2], [3, 4], [5, 6]] }

/-- A concrete external library for evaluating `_fit` on explicit
inputs: fitting any model specification yields the `fdA` delegate. -/
def libA : ModelArgs → String → FittedDelegate := fun _ _ => fdA

/-! Helper lemmas about the list operations used by the embedding. -/

lemma foldl_max_init_le (t : List Int) (a : Int) : a ≤ t.foldl max a := by
  induction t generalizing a with
  | nil => exact le_refl a
  | cons x xs ih => exact le_trans (le_max_left a x) (ih (max a x))

lemma le_foldl_max (t : List Int) (a x : Int) (hx : x ∈ t) :
    x ≤ t.foldl max a := by
  induction t generalizing a with
  | nil => cases hx
  | cons y ys ih =>
    rcases List.mem_cons.mp hx with h | h
    · subst h
      exact le_trans (le_max_right a x) (foldl_max_init_le ys (max a x))
    · exact ih (max a y) h

lemma foldl_max_mem (t : List Int) (a : Int) : t.foldl max a ∈ a :: t := by
  induction t generalizing a with
  | nil => exact List.mem_singleton.mpr rfl
  | cons x xs ih =>
    have h := ih (max a x)
    rcases List.mem_cons.mp h with h1 | h1
    · rcases max_choice a x with h2 | h2 <;> rw [List.foldl_cons, h1, h2]
      · exact List.mem_cons_self a (x :: xs)
      · exact List.mem_cons_of_mem a (List.mem_cons_self x xs)
    · exact List.mem_cons_of_mem a (List.mem_cons_of_mem x h1)

lemma listMax_mem (l : List Int) (h : l ≠ []) : listMax l ∈ l := by
  cases l with
  | nil => exact absurd rfl h
  | cons a t => exact foldl_max_mem t a

lemma le_listMax (l : List Int) (x : Int) (hx : x ∈ l) : x ≤ listMax l := by
  cases l with
  | nil => cases hx
  | cons a t =>
    rcases List.mem_cons.mp hx with h | h
    · subst h
      exact foldl_max_init_le t x
    · exact le_foldl_max t a x h

lemma foldl_min_le_init (t : List Int) (a : Int) : t.foldl min a ≤ a := by
  induction t generalizing a with
  | nil => exact le_refl a
  | cons x xs ih => exact le_trans (ih (min a x)) (min_le_left a x)

lemma foldl_min_le (t : List Int) (a x : Int) (hx : x ∈ t) :
    t.foldl min a ≤ x := by
  induction t generalizing a with
  | nil => cases hx
  | cons y ys ih =>
    rcases List.mem_cons.mp hx with h | h
    · subst h
      exact le_trans (foldl_min_le_init ys (min a x)) (min_le_right a x)
    · exact ih (min a y) h

lemma foldl_min_mem (t : List Int) (a : Int) : t.foldl min a ∈ a :: t := by
  induction t generalizing a with
  | nil => exact List.mem_singleton.mpr rfl
  | cons x xs ih =>
    have h := ih (min a x)
    rcases List.mem_cons.mp h with h1 | h1
    · rcases min_choice a x with h2 | h2 <;> rw [List.foldl_cons, h1, h2]
      · exact List.mem_cons_self a (x :: xs)
      · exact List.mem_cons_of_mem a (List.mem_cons_self x xs)
    · exact List.mem_cons_of_mem a (List.mem_cons_of_mem x h1)

lemma listMin_mem (l : List Int) (h : l ≠ []) : listMin l ∈ l := by
  cases l with
  | nil => exact absurd rfl h
  | cons a t => exact foldl_min_mem t a

lemma listMin_le (l : List Int) (x : Int) (hx : x ∈ l) : listMin l ≤ x := by
  cases l with
  | nil => cases hx
  | cons a t =>
    rcases List.mem_cons.mp hx with h | h
    · subst h
      exact foldl_min_le_init t x
    · exact foldl_min_le t a x h

lemma getLastD_mem (l : List Int) (h : l ≠ []) : l.getLastD 0 ∈ l := by
  induction l with
  | nil => exact absurd rfl h
  | cons a t ih =>
    cases t with
    | nil => exact List.mem_singleton.mpr rfl
    | cons b t2 =>
      have h2 : (a :: b :: t2).getLastD 0 = (b :: t2).getLastD 0 := rfl
      rw [h2]
      exact List.mem_cons_of_mem a (ih (List.cons_ne_nil b t2))

lemma le_getLastD_of_sorted (l : List Int) (hs : List.Sorted (· ≤ ·) l) :
    ∀ x ∈ l, x ≤ l.getLastD 0 := by
  induction l with
  | nil => intro x hx; cases hx
  | cons a t ih =>
    have hsc := List.sorted_cons.mp hs
    intro x hx
    cases t with
    | nil =>
      rcases List.mem_cons.mp hx with h | h
      · subst h; exact le_refl x
      · cases h
    | cons b t2 =>
      have h2 : (a :: b :: t2).getLastD 0 = (b :: t2).getLastD 0 := rfl
      rw [h2]
      rcases List.mem_cons.mp hx with h | h
      · subst h
        exact le_trans (hsc.1 b (List.mem_cons_self b t2))
          (ih hsc.2 b (List.mem_cons_self b t2))
      · exact ih hsc.2 x h

lemma lastElem_eq_listMax (l : List Int) (h : l ≠ [])
    (hs : List.Sorted (· ≤ ·) l) : lastElem l = listMax l :=
  le_antisymm (le_listMax l (l.getLastD 0) (getLastD_mem l h))
    (le_getLastD_of_sorted l hs (listMax l) (listMax_mem l h))

lemma getElem?_eq_getD {α : Type} (l : List α) (j : Nat) (d : α)
    (h : j < l.length) : l[j]? = some (l.getD j d) := by
  rw [List.getElem?_eq_getElem h]
  simp [List.getD_eq_getElem?_getD, List.getElem?_eq_getElem h]

lemma npTake?_nonneg {α : Type} (rows : List α) (i : Int) (h : 0 ≤ i) :
    npTake? rows i = rows[i.toNat]? := by
  simp [npTake?, h]

lemma npTake?_neg {α : Type} (rows : List α) (i : Int) (h : i < 0)
    (h2 : 0 ≤ (rows.length : Int) + i) :
    npTake? rows i = rows[((rows.length : Int) + i).toNat]? := by
  simp [npTake?, not_le.mpr h, h2]

lemma npFancyRows_some {α : Type} (rows : List α) (idx : List Int)
    (h : ∀ i ∈ idx, (npTake? rows i).isSome) :
    ∃ m, npFancyRows rows idx = some m ∧ m.length = idx.length ∧
      ∀ j, j < idx.length → m[j]? = npTake? rows (idx.getD j 0) := by
  induction idx with
  | nil =>
    exact ⟨[], rfl, rfl, fun j hj => absurd hj (Nat.not_lt_zero j)⟩
  | cons i is ih =>
    have hi := h i (List.mem_cons_self i is)
    rcases Option.isSome_iff_exists.mp hi with ⟨r, hr⟩
    rcases ih (fun x hx => h x (List.mem_cons_of_mem i hx)) with
      ⟨m, hm, hlen, hget⟩
    refine ⟨r :: m, ?_, by simp [hlen], ?_⟩
    · simp [npFancyRows, hr, hm]
    · intro j hj
      cases j with
      | zero => simpa using hr.symm
      | succ j2 =>
        have hj2 : j2 < is.length := by simpa using hj
        simpa using hget j2 hj2

lemma flatMap_block_getElem? {α β : Type} (l : List α) (f : α → List β)
    (L : Nat) (hf : ∀ a ∈ l, (f a).length = L) (k j : Nat)
    (hk : k < l.length) (hj : j < L) (d : α) :
    (l.flatMap f)[L * k + j]? = (f (l.getD k d))[j]? := by
  induction l generalizing k with
  | nil => cases hk
  | cons a t ih =>
    rw [List.flatMap_cons]
    cases k with
    | zero =>
      have hlen : (f a).length = L := hf a (List.mem_cons_self a t)
      have hjl : L * 0 + j < (f a).length := by omega
      rw [List.getElem?_append_left hjl]
      simp
    | succ k2 =>
      have hlen : (f a).length = L := hf a (List.mem_cons_self a t)
      have hge : (f a).length ≤ L * (k2 + 1) + j := by
        rw [hlen]; nlinarith
      rw [List.getElem?_append_right hge]
      have harith : L * (k2 + 1) + j - (f a).length = L * k2 + j := by
        rw [hlen]; ring_nf; omega
      rw [harith]
      have hk2 : k2 < t.length := by simpa using hk
      have := ih (fun x hx => hf x (List.mem_cons_of_mem a hx)) k2 hk2
      simpa using this

lemma extractRow0_length (n : Nat) (yl yu : Mat) :
    (extractRow0 n yl yu).length = 2 * n := by
  unfold extractRow0
  induction n with
  | zero => rfl
  | succ n2 ih =>
    rw [List.range_succ, List.flatMap_append]
    simp only [List.length_append, ih]
    simp [List.flatMap_cons]
    omega

lemma range_getD (n i : Nat) (h : i < n) : (List.range n).getD i 0 = i := by
  simp [List.getD_eq_getElem?_getD, List.getElem?_eq_getElem, h]

lemma extractRow0_getElem?_lower (n : Nat) (yl yu : Mat) (v : Nat)
    (hv : v < n) :
    (extractRow0 n yl yu)[2 * v]? = some ((yl.headD []).getD v 0) := by
  unfold extractRow0
  have h := flatMap_block_getElem? (List.range n)
    (fun v2 => [(yl.headD []).getD v2 0, (yu.headD []).getD v2 0]) 2
    (fun a _ => rfl) v 0 (by simpa using hv) (by omega) 0
  rw [show 2 * v = 2 * v + 0 from rfl, h, range_getD n v hv]
  rfl

lemma extractRow0_getElem?_upper (n : Nat) (yl yu : Mat) (v : Nat)
    (hv : v < n) :
    (extractRow0 n yl yu)[2 * v + 1]? = some ((yu.headD []).getD v 0) := by
  unfold extractRow0
  have h := flatMap_block_getElem? (List.range n)
    (fun v2 => [(yl.headD []).getD v2 0, (yu.headD []).getD v2 0]) 2
    (fun a _ => rfl) v 1 (by simpa using hv) (by omega) 0
  rw [h, range_getD n v hv]
  rfl

lemma intervalLoop_fst (fitted : FittedDelegate) (steps : Int)
    (e ec : Option Mat) (n : Nat) (cov : List ℚ) :
    (intervalLoop fitted steps e ec n cov).1 =
      cov.flatMap (fun c => extractRow0 n
        (fitted.predictInterval steps e ec (1 - c)).2.1
        (fitted.predictInterval steps e ec (1 - c)).2.2) := by
  induction cov with
  | nil => rfl
  | cons c rest ih => simp [intervalLoop, ih]

lemma intervalLoop_snd (fitted : FittedDelegate) (steps : Int)
    (e ec : Option Mat) (n : Nat) (cov : List ℚ) :
    (intervalLoop fitted steps e ec n cov).2 =
      cov.map (fun c => { steps := steps, alpha := 1 - c : IntervalCall }) := by
  induction cov with
  | nil => rfl
  | cons c rest ih => simp [intervalLoop, ih]

lemma map_getD (l : List Int) (f : Int → Int) (j : Nat) (h : j < l.length)
    (d e : Int) : (l.map f).getD j d = f (l.getD j e) := by
  have h2 : j < (l.map f).length := by simpa using h
  have a1 := getElem?_eq_getD (l.map f) j d h2
  have a2 := getElem?_eq_getD l j e h
  rw [List.getElem?_map, a2] at a1
  exact (Option.some_inj.mp a1).symm

lemma getD_mem {α : Type} (l : List α) (j : Nat) (d : α) (h : j < l.length) :
    l.getD j d ∈ l := by
  have a1 := getElem?_eq_getD l j d h
  rw [List.getElem?_eq_getElem h] at a1
  rw [← Option.some_inj.mp a1]
  exact List.getElem_mem h

/-! The claims. -/

/-- Claim C9: the constructor stores every configuration option verbatim
in same-named fields without validation (it is total and copies each
argument), and `_fit` leaves all eleven configuration fields unchanged,
mutating only the internal fitted-state fields (which afterwards hold
the external model built from the configuration and the result of
fitting it with the configured method). -/
theorem init_stores_params_fit_preserves_config
    (d : Option (List Int)) (f : Option String) (mi : String) (k c : Nat)
    (det : String) (s fs : Nat) (me : String) (ec ecf : Option Mat)
    (lib : ModelArgs → String → FittedDelegate) (y : DataFrame String)
    (X : Option Mat) (m : VECM) :
    (VECM.init d f mi k c det s fs me ec ecf).dates = d ∧
    (VECM.init d f mi k c det s fs me ec ecf).freq = f ∧
    (VECM.init d f mi k c det s fs me ec ecf).missing = mi ∧
    (VECM.init d f mi k c det s fs me ec ecf).k_ar_diff = k ∧
    (VECM.init d f mi k c det s fs me ec ecf).coint_rank = c ∧
    (VECM.init d f mi k c det s fs me ec ecf).deterministic = det ∧
    (VECM.init d f mi k c det s fs me ec ecf).seasons = s ∧
    (VECM.init d f mi k c det s fs me ec ecf).first_season = fs ∧
    (VECM.init d f mi k c det s fs me ec ecf).method = me ∧
    (VECM.init d f mi k c det s fs me ec ecf).exog_coint = ec ∧
    (VECM.init d f mi k c det s fs me ec ecf).exog_coint_fc = ecf ∧
    (VECM.init d f mi k c det s fs me ec ecf).fitted_forecaster = none ∧
    (m._fit lib y X).dates = m.dates ∧
    (m._fit lib y X).freq = m.freq ∧
    (m._fit lib y X).missing = m.missing ∧
    (m._fit lib y X).k_ar_diff = m.k_ar_diff ∧
    (m._fit lib y X).coint_rank = m.coint_rank ∧
    (m._fit lib y X).deterministic = m.deterministic ∧
    (m._fit lib y X).seasons = m.seasons ∧
    (m._fit lib y X).first_season = m.first_season ∧
    (m._fit lib y X).method = m.method ∧
    (m._fit lib y X).exog_coint = m.exog_coint ∧
    (m._fit lib y X).exog_coint_fc = m.exog_coint_fc ∧
    (m._fit lib y X).fitted_forecaster =
      some (lib ⟨y, X, m.exog_coint, m.dates, m.freq, m.missing,
        m.k_ar_diff, m.coint_rank, m.deterministic, m.seasons,
        m.first_season⟩ m.method) :=
  ⟨rfl, rfl, rfl, rfl, rfl, rfl, rfl, rfl, rfl, rfl, rfl, rfl, rfl, rfl,
   rfl, rfl, rfl, rfl, rfl, rfl, rfl, rfl, rfl, rfl⟩

/-- Claim C10: `get_test_params` returns exactly two distinct
configuration dictionaries — the default (empty) one and a variant with
`k_ar_diff = 2` — and constructing an adapter from each succeeds, with
the lag-difference order 1 (the default) respectively 2. -/
theorem get_test_params_two_distinct :
    VECM.get_test_params.length = 2 ∧
    VECM.get_test_params.getD 0 [] = [] ∧
    VECM.get_test_params.getD 1 [] = [("k_ar_diff", 2)] ∧
    VECM.get_test_params.getD 0 [] ≠ VECM.get_test_params.getD 1 [] ∧
    (VECM.fromTestParams (VECM.get_test_params.getD 0 [])).k_ar_diff = 1 ∧
    (VECM.fromTestParams (VECM.get_test_params.getD 1 [])).k_ar_diff = 2 := by
  decide

/-- Claim C8: on a freshly constructed adapter (no fit yet), both
`predict` and `predict_interval` fail with the distinguishable
not-fitted error rather than returning a result. -/
theorem predict_before_fit_not_fitted
    (d : Option (List Int)) (f : Option String) (mi : String) (k c : Nat)
    (det : String) (s fs : Nat) (me : String) (ec ecf : Option Mat)
    (fh : List Int) (X : Option Mat) (coverage : List ℚ) :
    (VECM.init d f mi k c det s fs me ec ecf).predict fh X =
      Except.error ForecastError.notFitted ∧
    (VECM.init d f mi k c det s fs me ec ecf).predict_interval fh X coverage =
      Except.error ForecastError.notFitted :=
  ⟨rfl, rfl⟩

/-- Claim C2: for every fitted delegate and horizon, `_predict_interval`
produces exactly one row of bound values while attaching the full
horizon's absolute index, whose cardinality is `len(fh)`. -/
theorem predict_interval_single_row_full_index
    (fitted : FittedDelegate) (y : DataFrame String) (cutoff : Int)
    (fh : List Int) (X ecfc : Option Mat) (coverage : List ℚ) :
    (VECM._predict_interval fitted y cutoff fh X ecfc coverage).1.rows.length
      = 1 ∧
    (VECM._predict_interval fitted y cutoff fh X ecfc coverage).1.index =
      fh.map (fun o => cutoff + o) ∧
    (VECM._predict_interval fitted y cutoff fh X ecfc
      coverage).1.index.length = fh.length := by
  refine ⟨rfl, rfl, ?_⟩
  simp [VECM._predict_interval, fhToAbsoluteIndex]

/-- Claim C6: for every requested coverage value `c`, the coverage loop
invokes the delegate's interval-producing forecast exactly once, with
significance level `alpha = 1 - c` and with `max(offset)` steps ahead,
in the caller's coverage order. -/
theorem predict_interval_calls_alpha_and_steps
    (fitted : FittedDelegate) (y : DataFrame String) (cutoff : Int)
    (fh : List Int) (X ecfc : Option Mat) (coverage : List ℚ)
    (hne : fh ≠ []) (hs : List.Sorted (· ≤ ·) fh) :
    (VECM._predict_interval fitted y cutoff fh X ecfc coverage).2 =
      coverage.map
        (fun c => { steps := listMax fh, alpha := 1 - c : IntervalCall }) := by
  have h0 : (VECM._predict_interval fitted y cutoff fh X ecfc coverage).2 =
      (intervalLoop fitted (lastElem (fhToRelative fh)) X ecfc
        (varNames y).length coverage).2 := rfl
  rw [h0, intervalLoop_snd]
  have h2 : lastElem (fhToRelative fh) = listMax fh :=
    lastElem_eq_listMax fh hne hs
  rw [h2]

/-- Witness for C6 at a concrete input: horizon `[1, 3]` and coverages
`1/2, 1/4` yield exactly the two delegate calls `(steps 3, alpha 1/2)`
and `(steps 3, alpha 3/4)`, in that order. -/
theorem predict_interval_calls_alpha_and_steps_witness :
    (VECM._predict_interval fdA yA 7 [1, 3] none none [1/2, 1/4]).2 =
      [(1 : ℚ)/2, 1/4].map
        (fun c => { steps := listMax [1, 3], alpha := 1 - c : IntervalCall }) :=
  predict_interval_calls_alpha_and_steps fdA yA 7 [1, 3] none none
    [1/2, 1/4] (by decide) (by decide)

/-- Claim C7, counterexample: when the training frame's index carries a
name (here `"T"`), the variable level of the interval output's column
index is built from that name's characters, not from the training
columns `["a", "b"]`; the claim's universally quantified column-index
description fails on this input. -/
theorem interval_columns_named_index_counterexample :
    (VECM._predict_interval fdA yNamed 7 [1] none none [1/2]).1.columns =
      [("T", (1 : ℚ)/2, "lower"), ("T", (1 : ℚ)/2, "upper")] ∧
    yNamed.columns = ["a", "b"] ∧
    ¬ (VECM._predict_interval fdA yNamed 7 [1] none none [1/2]).1.columns =
        yNamed.columns.flatMap (fun v => [(1 : ℚ)/2].flatMap
          (fun c => [(v, c, "lower"), (v, c, "upper")])) := by
  refine ⟨rfl, rfl, ?_⟩
  intro h
  have h2 := congrArg List.length h
  simp [VECM._predict_interval, varNames, yNamed, fromProduct3] at h2

/-- Claim C7 as amended: when the training frame's index is unnamed, the
interval output's column index is the three-level cartesian product
(variable, coverage value, side) with side in `{lower, upper}`, nested
in that order, the variable level being the training columns in
training-column order and the coverage level preserving the caller's
coverage ordering; when the index carries a name, the variable level is
instead derived from that name. -/
theorem interval_columns_product_unnamed_index
    (fitted : FittedDelegate) (y : DataFrame String) (cutoff : Int)
    (fh : List Int) (X ecfc : Option Mat) (coverage : List ℚ)
    (hname : y.indexName = none) :
    (VECM._predict_interval fitted y cutoff fh X ecfc coverage).1.columns =
      y.columns.flatMap (fun v => coverage.flatMap
        (fun c => [(v, c, "lower"), (v, c, "upper")])) := by
  simp [VECM._predict_interval, varNames, hname, fromProduct3]

/-- Witness for the amended C7 at a concrete input: unnamed index,
columns `a, b`, one coverage `1/2`. -/
theorem interval_columns_product_unnamed_index_witness :
    (VECM._predict_interval fdA yA 7 [1] none none [1/2]).1.columns =
      yA.columns.flatMap (fun v => [(1 : ℚ)/2].flatMap
        (fun c => [(v, c, "lower"), (v, c, "upper")])) :=
  interval_columns_product_unnamed_index fdA yA 7 [1] none none [1/2] rfl

/-- Claim C1, counterexample: with horizon `[1, 2]` the delegate is
asked for 2 steps; its lower-bound matrix is `[[1, 2], [3, 4]]`, so the
final requested step (the `max(offset)`-th, row 1) has lower bound 3 for
the first variable, yet the adapter's output stores 1 — the row-0
(first-step) bound.  The claim that the bounds are extracted at the
final requested step, not at any earlier step, is false here. -/
theorem predict_interval_final_step_counterexample :
    ((VECM._predict_interval fdA yA 7 [1, 2] none none
        [1/2]).1.rows.headD [])[0]? = some 1 ∧
    ((fdA.predictInterval (lastElem [1, 2]) none none (1 - 1/2)).2.1.getD
        ((lastElem [1, 2]).toNat - 1) []).getD 0 0 = 3 ∧
    some (1 : Int) ≠ some (3 : Int) := by
  refine ⟨rfl, rfl, ?_⟩
  decide

/-- Claim C1 as amended: for every fitted delegate, horizon and coverage
list, the interval output's single value row stores, for the `k`-th
coverage and `v`-th variable, the lower and upper bounds taken from
row 0 — the *first* step ahead — of the matrices the delegate returns
for `fh_int[-1]` steps at significance `1 - c`, not the bounds at the
final requested step. -/
theorem predict_interval_extracts_first_step
    (fitted : FittedDelegate) (y : DataFrame String) (cutoff : Int)
    (fh : List Int) (X ecfc : Option Mat) (coverage : List ℚ) (k v : Nat)
    (hk : k < coverage.length) (hv : v < (varNames y).length) :
    ((VECM._predict_interval fitted y cutoff fh X ecfc
        coverage).1.rows.headD [])[2 * (varNames y).length * k + 2 * v]? =
      some (((fitted.predictInterval (lastElem fh) X ecfc
        (1 - coverage.getD k 1)).2.1.headD []).getD v 0) ∧
    ((VECM._predict_interval fitted y cutoff fh X ecfc
        coverage).1.rows.headD [])[2 * (varNames y).length * k + 2 * v + 1]? =
      some (((fitted.predictInterval (lastElem fh) X ecfc
        (1 - coverage.getD k 1)).2.2.headD []).getD v 0) := by
  have hrow : (VECM._predict_interval fitted y cutoff fh X ecfc
      coverage).1.rows.headD [] =
      coverage.flatMap (fun c => extractRow0 (varNames y).length
        (fitted.predictInterval (lastElem fh) X ecfc (1 - c)).2.1
        (fitted.predictInterval (lastElem fh) X ecfc (1 - c)).2.2) := by
    have h0 : (VECM._predict_interval fitted y cutoff fh X ecfc
        coverage).1.rows.headD [] =
        (intervalLoop fitted (lastElem (fhToRelative fh)) X ecfc
          (varNames y).length coverage).1 := rfl
    rw [h0, intervalLoop_fst]
    rfl
  have hblock : ∀ c ∈ coverage,
      (extractRow0 (varNames y).length
        (fitted.predictInterval (lastElem fh) X ecfc (1 - c)).2.1
        (fitted.predictInterval (lastElem fh) X ecfc (1 - c)).2.2).length =
      2 * (varNames y).length := fun c _ => extractRow0_length _ _ _
  constructor
  · rw [hrow]
    have h := flatMap_block_getElem? coverage _ (2 * (varNames y).length)
      hblock k (2 * v) hk (by omega) 1
    rw [show 2 * (varNames y).length * k + 2 * v =
      2 * (varNames y).length * k + 2 * v from rfl, h]
    exact extractRow0_getElem?_lower (varNames y).length _ _ v hv
  · rw [hrow]
    have h := flatMap_block_getElem? coverage _ (2 * (varNames y).length)
      hblock k (2 * v + 1) hk (by omega) 1
    rw [show 2 * (varNames y).length * k + 2 * v + 1 =
      2 * (varNames y).length * k + (2 * v + 1) from by omega, h]
    exact extractRow0_getElem?_upper (varNames y).length _ _ v hv

/-- Claim C3, evaluated at the failing input: on the string-columned,
time-indexed training fixture with horizon `[0]`, the pandas
subtraction of source line 209 aligns `self._y` (index `[5, 6, 7]`,
columns `a, b`) with the residual frame's `RangeIndex` labels, sharing
no column label, so the in-sample block is the 6-row, 4-column all-`NaN`
union frame and the returned row is four `NaN`s — not the training row
minus the residual row at the cutoff position, which would be
`[-25, -24]`.  (In real pandas the final `pd.DataFrame(..., columns=...)`
constructor then additionally raises a shape `ValueError`, 4 data
columns against 2 labels; constructors are modelled as label
attachment, as in the interval path.) -/
theorem predict_insample_misaligned_nan :
    VECM._predict fdA yA 7 [0] none none =
      some ⟨[7], none, ["a", "b"], [[none, none, none, none]]⟩ ∧
    pdSubValues yA fdA.resid =
      List.replicate 6 [none, none, none, none] ∧
    List.zipWith (fun a b => a - b) (yA.rows.getD 2 []) (fdA.resid.getD 2 [])
      = [-25, -24] ∧
    ([[(none : Option Int), none, none, none]] :
      List (List (Option Int))) ≠ [[some (-25), some (-24)]] := by
  refine ⟨by decide, by decide, by decide, by decide⟩

/-- Claim C5, evaluated at the failing input: on the same fixture with
the mixed horizon `[-1, 1]`, the out-of-sample block has 2 columns but
the label-aligned in-sample block has 4 (the training columns plus the
residual frame's integer columns), so `np.concatenate` (source line
213) fails with a shape error and the point-prediction operation aborts
— no out-of-sample-first concatenation and no reordered output row
exist. -/
theorem predict_mixed_concat_mismatch :
    (((fdA.predictPoint (lastElem [-1, 1]) none none).map
      (fun r => r.map some)).headD []).length = 2 ∧
    ((pdSubValues yA fdA.resid).headD []).length = 4 ∧
    npConcat? ((fdA.predictPoint (lastElem [-1, 1]) none none).map
      (fun r => r.map some)) (pdSubValues yA fdA.resid) = none ∧
    predictPool fdA yA [-1, 1] none none = none ∧
    VECM._predict fdA yA 7 [-1, 1] none none = none := by
  refine ⟨by decide, by decide, by decide, by decide, by decide⟩

/-- For a fitted delegate and training frame, `_predict` with a
non-empty sorted horizon of strictly positive offsets returns a frame
with exactly `len(fh)` rows, the training columns, and the horizon's
absolute index in requested order; the delegate is assumed to honour its
contract of returning one row per requested step. -/
lemma predict_outsample_spec
    (fitted : FittedDelegate) (y : DataFrame String) (cutoff : Int)
    (fh : List Int) (X ecfc : Option Mat)
    (hne : fh ≠ []) (hpos : ∀ o ∈ fh, 0 < o) (hs : List.Sorted (· ≤ ·) fh)
    (hlen : (fitted.predictPoint (lastElem fh) X ecfc).length =
      (lastElem fh).toNat) :
    ∃ df, VECM._predict fitted y cutoff fh X ecfc = some df ∧
      df.rows.length = fh.length ∧
      df.columns = y.columns ∧
      df.index = fh.map (fun o => cutoff + o) := by
  have hmax : 0 < listMax fh := hpos _ (listMax_mem fh hne)
  have hmin : ¬ listMin fh ≤ 0 := by
    have := hpos _ (listMin_mem fh hne)
    omega
  have hpool : predictPool fitted y fh X ecfc =
      some ((fitted.predictPoint (lastElem fh) X ecfc).map
        (fun r => r.map some)) := by
    simp [predictPool, fhToRelative, hmax, hmin]
  have hvalid : ∀ i ∈ fhToIndexer fh,
      (npTake? ((fitted.predictPoint (lastElem fh) X ecfc).map
        (fun r => r.map some)) i).isSome := by
    intro i hi
    rcases List.mem_map.mp hi with ⟨o, ho, rfl⟩
    have h1 : 0 < o := hpos o ho
    have h2 : o ≤ lastElem fh := le_getLastD_of_sorted fh hs o ho
    rw [npTake?_nonneg _ _ (by omega)]
    have hidx : (o - 1).toNat <
        ((fitted.predictPoint (lastElem fh) X ecfc).map
          (fun r => r.map some)).length := by
      rw [List.length_map, hlen]
      omega
    rw [List.getElem?_eq_getElem hidx]
    simp
  rcases npFancyRows_some _ (fhToIndexer fh) hvalid with ⟨m, hm, hlen2, hget⟩
  refine ⟨⟨fhToAbsoluteIndex cutoff fh, y.indexName, y.columns, m⟩,
    ?_, ?_, rfl, rfl⟩
  · simp [VECM._predict, hpool, hm]
  · show m.length = fh.length
    rw [hlen2]
    simp [fhToIndexer, fhToRelative]

/-- Claim C4: for every valid training frame, `_fit` followed by
`predict` with a non-empty sorted horizon of strictly positive offsets
succeeds and returns a frame with exactly `len(fh)` rows, column names
identical to the training frame's columns, and index equal to the
horizon's absolute time labels (cutoff plus offset) in the requested
order; the external library's fitted result is assumed to honour its
contract of returning one forecast row per requested step. -/
theorem fit_then_predict_outsample_shape_columns_index
    (m : VECM) (lib : ModelArgs → String → FittedDelegate)
    (y : DataFrame String) (X : Option Mat) (fh : List Int) (X2 : Option Mat)
    (hne : fh ≠ []) (hpos : ∀ o ∈ fh, 0 < o) (hs : List.Sorted (· ≤ ·) fh)
    (hlen : ((lib ⟨y, X, m.exog_coint, m.dates, m.freq, m.missing,
        m.k_ar_diff, m.coint_rank, m.deterministic, m.seasons,
        m.first_season⟩ m.method).predictPoint (lastElem fh) X2
        m.exog_coint_fc).length = (lastElem fh).toNat) :
    ∃ df, (m._fit lib y X).predict fh X2 = Except.ok (some df) ∧
      df.rows.length = fh.length ∧
      df.columns = y.columns ∧
      df.index = fh.map (fun o => y.index.getLastD 0 + o) := by
  rcases predict_outsample_spec
    (lib ⟨y, X, m.exog_coint, m.dates, m.freq, m.missing, m.k_ar_diff,
      m.coint_rank, m.deterministic, m.seasons, m.first_season⟩ m.method)
    y (y.index.getLastD 0) fh X2 m.exog_coint_fc hne hpos hs hlen with
    ⟨df, h1, h2, h3, h4⟩
  refine ⟨df, ?_, h2, h3, h4⟩
  have h0 : (m._fit lib y X).predict fh X2 =
      Except.ok (VECM._predict
        (lib ⟨y, X, m.exog_coint, m.dates, m.freq, m.missing, m.k_ar_diff,
          m.coint_rank, m.deterministic, m.seasons, m.first_season⟩ m.method)
        y (y.index.getLastD 0) fh X2 m.exog_coint_fc) := rfl
  rw [h0, h1]

/-- Witness for C4 at a concrete input: the all-future horizon `[1, 2]`
after fitting the default-configured adapter on the `yA` fixture with
the `libA` library. -/
theorem fit_then_predict_outsample_shape_columns_index_witness :
    ∃ df, ((VECM.fromTestParams [])._fit libA yA none).predict [1, 2] none =
        Except.ok (some df) ∧
      df.rows.length = ([1, 2] : List Int).length ∧
      df.columns = yA.columns ∧
      df.index = ([1, 2] : List Int).map (fun o => yA.index.getLastD 0 + o) :=
  fit_then_predict_outsample_shape_columns_index (VECM.fromTestParams [])
    libA yA none [1, 2] none (by decide) (by decide) (by decide) (by decide)

/-- Witness for the amended C1 at a concrete input: coverage position 0,
variable position 0 of the `fdA`/`yA` fixture with horizon `[1, 2]`. -/
theorem predict_interval_extracts_first_step_witness :
    ((VECM._predict_interval fdA yA 7 [1, 2] none none
        [1/2]).1.rows.headD [])[2 * (varNames yA).length * 0 + 2 * 0]? =
      some (((fdA.predictInterval (lastElem [1, 2]) none none
        (1 - [(1 : ℚ)/2].getD 0 1)).2.1.headD []).getD 0 0) ∧
    ((VECM._predict_interval fdA yA 7 [1, 2] none none
        [1/2]).1.rows.headD [])[2 * (varNames yA).length * 0 + 2 * 0 + 1]? =
      some (((fdA.predictInterval (lastElem [1, 2]) none none
        (1 - [(1 : ℚ)/2].getD 0 1)).2.2.headD []).getD 0 0) :=
  predict_interval_extracts_first_step fdA yA 7 [1, 2] none none [1/2] 0 0
    (by decide) (by decide)
